import Mathlib

/-!
Verification of the PRIME CVD risk calculator core.

The risk estimator is embedded from `src/calculations.py` (real-valued
idealisation of the Python float arithmetic, with Python's banker's rounding
for `round(x, 1)` and `math.log`'s domain error modelled explicitly).

The four treatment-side functions (`calculate_ldl_effect`,
`calculate_ldl_reduction`, `validate_drug_classes`,
`generate_recommendations`) and the `LDL_THERAPIES` table are imported by
`src/main.py` from `.calculations` / `.constants` but their definitions are
absent from the repository sources, so they are modelled from the spec
(sections 4.2-4.5), over ℚ since they use only field operations.
-/

namespace CVD

/-! ## RiskEstimator (src/calculations.py) -/

/-- Rounding to the nearest integer with ties to even, as Python's `round`
does (banker's rounding). On a tie the even neighbour is `2 * round (x / 2)`. -/
noncomputable def roundHalfEven (x : ℝ) : ℤ :=
  if Int.fract x = 1/2 then 2 * round (x / 2) else round x

/-- Python's `round(x, 1)`: round to one decimal place, ties to even. -/
noncomputable def round1 (x : ℝ) : ℝ := (roundHalfEven (x * 10) : ℝ) / 10

/-- `calculate_smart_risk` from `src/calculations.py` lines 6-13, with Python
floats idealised as reals. `math.log` is taken total here; its domain error is
modelled in `calculate_smart_risk_run`. -/
noncomputable def calculate_smart_risk (age : ℝ) (sex : String) (sbp total_chol hdl : ℝ)
    (smoker diabetes : Bool) (egfr crp vasc_count : ℝ) : ℝ :=
  let sex_val : ℝ := if sex = "Male" then 1 else 0
  let smoking_val : ℝ := if smoker then 1 else 0
  let diabetes_val : ℝ := if diabetes then 1 else 0
  let crp_log := Real.log (crp + 1)
  let lp := 0.064 * age + 0.34 * sex_val + 0.02 * sbp + 0.25 * total_chol - 0.25 * hdl
    + 0.44 * smoking_val + 0.51 * diabetes_val - 0.2 * (egfr / 10) + 0.25 * crp_log
    + 0.4 * vasc_count
  let risk10 := 1 - (0.900 : ℝ) ^ Real.exp (lp - 5.8)
  max 1.0 (min 99.0 (round1 (risk10 * 100)))

/-- Failure modes visible at the risk-estimator boundary: the raw
`ValueError: math domain error` that Python's `math.log` raises on a
non-positive argument, and the spec's wished-for wrapped InvalidInput. -/
inductive CalcError
  | mathDomainError
  | invalidInput
deriving DecidableEq

/-- Python's `math.log`: raises a ValueError (math domain error) on
non-positive arguments, otherwise returns the natural logarithm. -/
noncomputable def mathLog (x : ℝ) : Except CalcError ℝ :=
  if 0 < x then Except.ok (Real.log x) else Except.error CalcError.mathDomainError

/-- `calculate_smart_risk` with the `math.log` call's failure made explicit:
the function body (lines 10-13) runs only when `math.log (crp + 1)` succeeds;
otherwise the uncaught domain error propagates and no result is produced. -/
noncomputable def calculate_smart_risk_run (age : ℝ) (sex : String)
    (sbp total_chol hdl : ℝ) (smoker diabetes : Bool) (egfr crp vasc_count : ℝ) :
    Except CalcError ℝ :=
  (mathLog (crp + 1)).map (fun crp_log =>
    let sex_val : ℝ := if sex = "Male" then 1 else 0
    let smoking_val : ℝ := if smoker then 1 else 0
    let diabetes_val : ℝ := if diabetes then 1 else 0
    let lp := 0.064 * age + 0.34 * sex_val + 0.02 * sbp + 0.25 * total_chol - 0.25 * hdl
      + 0.44 * smoking_val + 0.51 * diabetes_val - 0.2 * (egfr / 10) + 0.25 * crp_log
      + 0.4 * vasc_count
    let risk10 := 1 - (0.900 : ℝ) ^ Real.exp (lp - 5.8)
    max 1.0 (min 99.0 (round1 (risk10 * 100))))

/-- The spec's formula for the estimator, written from the spec's words
(section 4.1): the linear predictor carries the coefficient `-0.02 * egfr`
where the code has `-0.2 * (egfr / 10)`. -/
noncomputable def spec_estimate (age : ℝ) (sex : String) (sbp total_chol hdl : ℝ)
    (smoker diabetes : Bool) (egfr crp vasc_count : ℝ) : ℝ :=
  let sexMale : ℝ := if sex = "Male" then 1 else 0
  let smokerVal : ℝ := if smoker then 1 else 0
  let diabeticVal : ℝ := if diabetes then 1 else 0
  let lp := 0.064 * age + 0.34 * sexMale + 0.02 * sbp + 0.25 * total_chol - 0.25 * hdl
    + 0.44 * smokerVal + 0.51 * diabeticVal - 0.02 * egfr + 0.25 * Real.log (crp + 1)
    + 0.4 * vasc_count
  let risk10 := 1 - (0.900 : ℝ) ^ Real.exp (lp - 5.8)
  max 1.0 (min 99.0 (round1 (risk10 * 100)))

/-- The clamped, rounded risk as a function of the linear predictor alone. -/
noncomputable def smartFromLp (lp : ℝ) : ℝ :=
  max 1.0 (min 99.0 (round1 ((1 - (0.900 : ℝ) ^ Real.exp (lp - 5.8)) * 100)))

/-- The full input tuple of the risk estimator (the `@st.cache_data` key). -/
structure SmartInput where
  age : ℝ
  sex : String
  sbp : ℝ
  total_chol : ℝ
  hdl : ℝ
  smoker : Bool
  diabetes : Bool
  egfr : ℝ
  crp : ℝ
  vasc_count : ℝ

/-- The estimator applied to a bundled input tuple. -/
noncomputable def estimateOn (i : SmartInput) : Except CalcError ℝ :=
  calculate_smart_risk_run i.age i.sex i.sbp i.total_chol i.hdl i.smoker i.diabetes
    i.egfr i.crp i.vasc_count

/-- A memoising wrapper over the estimator: answer from the cache when the
full input tuple is present, otherwise compute. Models `@st.cache_data`. -/
noncomputable def estimateWithCache (cache : SmartInput → Option (Except CalcError ℝ))
    (i : SmartInput) : Except CalcError ℝ :=
  match cache i with
  | some r => r
  | none => estimateOn i

/-! ## RiskAdjuster (spec section 4.4), LdlReductionModel (4.3),
TherapyConflictValidator (4.2), RecommendationEngine (4.5) -/

/-- Modelled from the spec: `calculate_ldl_effect` is imported by
`src/main.py` from `.calculations` but not defined under `src/`.
Spec section 4.4: `ldlDrop = baselineLdl - projectedLdl`;
`rrr = min (22 * ldlDrop) 60`; result `= baselineRisk * (1 - rrr / 100)`. -/
def calculate_ldl_effect (baselineRisk baselineLdl projectedLdl : ℚ) : ℚ :=
  let ldlDrop := baselineLdl - projectedLdl
  let rrr := min (22 * ldlDrop) 60
  baselineRisk * (1 - rrr / 100)

/-- Modelled from the spec: the `LDL_THERAPIES` table lives in the missing
`.constants` module; entries from spec section 4.3 step 1. -/
def LDL_THERAPIES : List (String × ℚ) :=
  [("Atorvastatin 20 mg", 40), ("Atorvastatin 80 mg", 50),
   ("Rosuvastatin 10 mg", 45), ("Rosuvastatin 20 mg", 55)]

/-- Modelled from the spec: base percentage reduction of a statin, looked up
in `LDL_THERAPIES`; unknown or "None" gives 0 (spec section 4.3 step 1). -/
def statin_reduction (s : String) : ℚ :=
  match LDL_THERAPIES.find? (fun p => p.1 == s) with
  | some p => p.2
  | none => 0

/-- Modelled from the spec: fixed incremental reduction of an add-on therapy
(spec section 4.3 step 3). -/
def add_on_reduction (a : String) : ℚ :=
  if a = "Ezetimibe" then 20
  else if a = "PCSK9 inhibitor" then 60
  else if a = "Inclisiran" then 50
  else 0

/-- Modelled from the spec: `calculate_ldl_reduction` is imported by
`src/main.py` from `.calculations` but not defined under `src/`.
Spec section 4.3: halve the new statin's base reduction when a prior statin
exists, add the add-on reductions additively with no cap, and return
`(projectedLdl, totalReduction)` with
`projectedLdl = currentLdl * (1 - totalReduction / 100)`. -/
def calculate_ldl_reduction (currentLdl : ℚ) (priorStatin newStatin : String)
    (addOns : List String) : ℚ × ℚ :=
  let base := statin_reduction newStatin
  let statinPart := if priorStatin ≠ "None" then base * 0.5 else base
  let total := statinPart + (addOns.map add_on_reduction).sum
  (currentLdl * (1 - total / 100), total)

/-- Case-insensitive prefix test on character lists (needle first). -/
def startsWithChars : List Char → List Char → Bool
  | [], _ => true
  | _ :: _, [] => false
  | a :: as, b :: bs => a == b && startsWithChars as bs

/-- Substring containment on character lists (needle first). -/
def hasSub (needle : List Char) : List Char → Bool
  | [] => needle.isEmpty
  | c :: rest => startsWithChars needle (c :: rest) || hasSub needle rest

/-- Modelled from the spec: the drug-class vocabulary of
TherapyConflictValidator, in declaration order (spec section 4.2). -/
def drug_classes : List (String × List String) :=
  [("Statins", ["atorvastatin", "rosuvastatin"]),
   ("PCSK9 inhibitors", ["pcsk9", "evolocumab"]),
   ("Ezetimibe", ["ezetimibe"]),
   ("Inclisiran", ["inclisiran"])]

/-- Modelled from the spec: a therapy matches a class when some class keyword
is a substring of the lower-cased therapy name (spec section 4.2). -/
def matches_class (keywords : List String) (therapy : String) : Bool :=
  keywords.any (fun k => hasSub k.toList therapy.toLower.toList)

/-- Therapies of the input selection matching a given class, in input order. -/
def class_offenders (ts : List String) (c : String × List String) : List String :=
  ts.filter (matches_class c.2)

/-- Modelled from the spec: a conflict message names the class and the
offending therapies joined by ", " (spec section 4.2). -/
def conflict_message (className : String) (offenders : List String) : String :=
  "Multiple " ++ className ++ " selected: " ++ String.intercalate ", " offenders

/-- Modelled from the spec: `validate_drug_classes` is imported by
`src/main.py` from `.calculations` but not defined under `src/`.
Spec section 4.2: one conflict message per class with two or more matches,
in class declaration order. -/
def validate_drug_classes (ts : List String) : List String :=
  drug_classes.foldl (fun acc c =>
    let offenders := class_offenders ts c
    if 2 ≤ offenders.length then acc ++ [conflict_message c.1 offenders] else acc) []

/-- Recommendation tier of spec section 4.5. -/
inductive RiskTier
  | veryHigh
  | high
  | moderate
deriving DecidableEq

/-- Modelled from the spec: `generate_recommendations` is imported by
`src/main.py` from `.calculations` but not defined under `src/`.
Spec section 4.5: `finalRisk ≥ 30` gives VeryHigh, `20 ≤ finalRisk < 30`
gives High, otherwise Moderate, each with fixed advisory text. -/
def generate_recommendations (finalRisk : ℚ) : RiskTier × String :=
  if 30 ≤ finalRisk then
    (RiskTier.veryHigh, "high-intensity statin, PCSK9 inhibitor, target SBP <130")
  else if 20 ≤ finalRisk then
    (RiskTier.high, "moderate-intensity statin, target SBP <130")
  else
    (RiskTier.moderate, "lifestyle adherence, annual reassessment")

/-! ## Rounding and monotonicity helpers -/

/-- On a half tie, `2 * round (x / 2)` is the floor or its successor,
whichever is even. -/
lemma roundHalfEven_tie (x : ℝ) (h : Int.fract x = 1/2) :
    2 * round (x / 2) = ⌊x⌋ ∨ 2 * round (x / 2) = ⌊x⌋ + 1 := by
  have hx : x = (⌊x⌋ : ℝ) + 1/2 := by
    rw [Int.fract] at h
    linarith
  rcases Int.even_or_odd ⌊x⌋ with ⟨m, hm⟩ | ⟨m, hm⟩
  · left
    have hx2 : x / 2 = (1/4 : ℝ) + (m : ℤ) := by
      rw [hx, hm]
      push_cast
      ring
    rw [hx2, round_add_int]
    have h0 : round ((1:ℝ)/4) = 0 := by norm_num [round_eq]
    rw [h0]
    omega
  · right
    have hx2 : x / 2 = (3/4 : ℝ) + (m : ℤ) := by
      rw [hx, hm]
      push_cast
      ring
    rw [hx2, round_add_int]
    have h1 : round ((3:ℝ)/4) = 1 := by norm_num [round_eq]
    rw [h1]
    omega

/-- Banker's rounding lands within a half of its argument. -/
lemma roundHalfEven_bounds (x : ℝ) :
    x - 1/2 ≤ (roundHalfEven x : ℝ) ∧ (roundHalfEven x : ℝ) ≤ x + 1/2 := by
  unfold roundHalfEven
  split_ifs with h
  · have hx : x = (⌊x⌋ : ℝ) + 1/2 := by
      rw [Int.fract] at h
      linarith
    rcases roundHalfEven_tie x h with h2 | h2
    · rw [h2]
      constructor <;> linarith
    · rw [h2]
      push_cast
      constructor <;> linarith
  · have hr := abs_sub_round x
    rw [abs_le] at hr
    constructor <;> linarith [hr.1, hr.2]

/-- Banker's rounding is weakly monotone. -/
lemma roundHalfEven_mono {x y : ℝ} (h : x ≤ y) : roundHalfEven x ≤ roundHalfEven y := by
  by_contra hc
  push_neg at hc
  have h1 := roundHalfEven_bounds x
  have h2 := roundHalfEven_bounds y
  have hcast : (roundHalfEven y : ℝ) + 1 ≤ (roundHalfEven x : ℝ) := by
    exact_mod_cast Int.add_one_le_iff.mpr hc
  have hxy : x = y := le_antisymm h (by linarith [h1.2, h2.1])
  rw [hxy] at hc
  exact lt_irrefl _ hc

/-- Rounding to one decimal is weakly monotone. -/
lemma round1_mono {x y : ℝ} (h : x ≤ y) : round1 x ≤ round1 y := by
  unfold round1
  have h10 := roundHalfEven_mono (show x * 10 ≤ y * 10 by linarith)
  have hcast : ((roundHalfEven (x * 10) : ℤ) : ℝ) ≤ ((roundHalfEven (y * 10) : ℤ) : ℝ) := by
    exact_mod_cast h10
  linarith

/-- The rounded, clamped risk is weakly monotone in the linear predictor. -/
lemma smartFromLp_mono {a b : ℝ} (h : a ≤ b) : smartFromLp a ≤ smartFromLp b := by
  unfold smartFromLp
  have he : Real.exp (a - 5.8) ≤ Real.exp (b - 5.8) := Real.exp_le_exp.mpr (by linarith)
  have hp : (0.900 : ℝ) ^ Real.exp (b - 5.8) ≤ (0.900 : ℝ) ^ Real.exp (a - 5.8) :=
    Real.rpow_le_rpow_of_exponent_ge (by norm_num) (by norm_num) he
  exact max_le_max le_rfl (min_le_min le_rfl (round1_mono (by linarith)))

/-- The code's estimator is `smartFromLp` of the code's linear predictor. -/
lemma calculate_smart_risk_eq (age : ℝ) (sex : String) (sbp total_chol hdl : ℝ)
    (smoker diabetes : Bool) (egfr crp vasc_count : ℝ) :
    calculate_smart_risk age sex sbp total_chol hdl smoker diabetes egfr crp vasc_count
      = smartFromLp (0.064 * age + 0.34 * (if sex = "Male" then (1:ℝ) else 0) + 0.02 * sbp
          + 0.25 * total_chol - 0.25 * hdl + 0.44 * (if smoker then (1:ℝ) else 0)
          + 0.51 * (if diabetes then (1:ℝ) else 0) - 0.2 * (egfr / 10)
          + 0.25 * Real.log (crp + 1) + 0.4 * vasc_count) := rfl

/-- The spec formula is `smartFromLp` of the spec's linear predictor. -/
lemma spec_estimate_eq (age : ℝ) (sex : String) (sbp total_chol hdl : ℝ)
    (smoker diabetes : Bool) (egfr crp vasc_count : ℝ) :
    spec_estimate age sex sbp total_chol hdl smoker diabetes egfr crp vasc_count
      = smartFromLp (0.064 * age + 0.34 * (if sex = "Male" then (1:ℝ) else 0) + 0.02 * sbp
          + 0.25 * total_chol - 0.25 * hdl + 0.44 * (if smoker then (1:ℝ) else 0)
          + 0.51 * (if diabetes then (1:ℝ) else 0) - 0.02 * egfr
          + 0.25 * Real.log (crp + 1) + 0.4 * vasc_count) := rfl

/-- With `crp > -1` the logarithm succeeds and the run is the pure value. -/
lemma calculate_smart_risk_run_ok (age : ℝ) (sex : String) (sbp total_chol hdl : ℝ)
    (smoker diabetes : Bool) (egfr crp vasc_count : ℝ) (h : -1 < crp) :
    calculate_smart_risk_run age sex sbp total_chol hdl smoker diabetes egfr crp vasc_count
      = Except.ok
          (calculate_smart_risk age sex sbp total_chol hdl smoker diabetes egfr crp
            vasc_count) := by
  unfold calculate_smart_risk_run mathLog
  rw [if_pos (show (0:ℝ) < crp + 1 by linarith)]
  rfl

/-! ## Theorems for the treatment-side components -/

/-- Folding a conditional append over a list collects exactly the mapped
filtered elements, in list order. -/
lemma foldl_append_filter {α β : Type} (p : α → Prop) [DecidablePred p] (f : α → β) :
    ∀ (l : List α) (acc : List β),
      l.foldl (fun a x => if p x then a ++ [f x] else a) acc
        = acc ++ (l.filter (fun x => decide (p x))).map f := by
  intro l
  induction l with
  | nil => intro acc; simp
  | cons h t ih =>
    intro acc
    by_cases hp : p h
    · simp [List.foldl, hp, ih, List.filter_cons]
    · simp [List.foldl, hp, ih, List.filter_cons]

/-- The validator is the conditional-append fold collapsed to a filter-map. -/
lemma validate_drug_classes_eq (ts : List String) :
    validate_drug_classes ts
      = (drug_classes.filter (fun c => decide (2 ≤ (class_offenders ts c).length))).map
          (fun c => conflict_message c.1 (class_offenders ts c)) :=
  foldl_append_filter (fun c => 2 ≤ (class_offenders ts c).length)
    (fun c => conflict_message c.1 (class_offenders ts c)) drug_classes []

/-- C5: RiskAdjuster.adjust equals
`baselineRisk * (1 - min (22 * (baselineLdl - projectedLdl)) 60 / 100)` for
all inputs; at (40, 3.5, 1.4) it returns 21.52; and when projectedLdl
exceeds baselineLdl the result exceeds the (positive) baseline risk, with no
error. -/
theorem risk_adjuster_formula (b l p : ℚ) (hb : 0 < b) (hlp : l < p) :
    (∀ b2 l2 p2 : ℚ,
      calculate_ldl_effect b2 l2 p2 = b2 * (1 - min (22 * (l2 - p2)) 60 / 100))
    ∧ calculate_ldl_effect 40 3.5 1.4 = 21.52
    ∧ b < calculate_ldl_effect b l p := by
  refine ⟨fun b2 l2 p2 => rfl, by norm_num [calculate_ldl_effect, min_def], ?_⟩
  simp only [calculate_ldl_effect]
  rw [min_eq_left (by linarith : 22 * (l - p) ≤ 60)]
  nlinarith [mul_pos hb (show (0:ℚ) < 22 * (p - l) / 100 by linarith)]

/-- Witness for C5: the formula identity instantiated at (40, 3.5, 1.4), the
21.52 value, and risk inflation at baselineLdl 1.4 rising to 3.5. -/
theorem risk_adjuster_formula_witness :
    calculate_ldl_effect 40 3.5 1.4 = 40 * (1 - min (22 * (3.5 - 1.4)) 60 / 100)
    ∧ calculate_ldl_effect 40 3.5 1.4 = 21.52
    ∧ (40:ℚ) < calculate_ldl_effect 40 1.4 3.5 :=
  ⟨(risk_adjuster_formula 40 1.4 3.5 (by norm_num) (by norm_num)).1 40 3.5 1.4,
   (risk_adjuster_formula 40 1.4 3.5 (by norm_num) (by norm_num)).2.1,
   (risk_adjuster_formula 40 1.4 3.5 (by norm_num) (by norm_num)).2.2⟩

/-- C4 is false as stated: with baselineRisk = 1 (inside [1, 99]) and the
valid LDL pair (3.5, 1.4), the adjusted risk is 0.538, below 1.0. -/
theorem risk_adjuster_range_counterexample :
    calculate_ldl_effect 1 3.5 1.4 = 0.538 ∧ calculate_ldl_effect 1 3.5 1.4 < 1 := by
  norm_num [calculate_ldl_effect, min_def]

/-- C4 amended: with baselineRisk in [1, 99] and both LDL values in
[0.5, 6.0], the unclamped adjusted risk lies in [0.4, 218.79] — not in
[1.0, 99.0] — and both bounds are attained inside the valid domain: the
lower at (1, 6, 0.5) and the upper at (99, 0.5, 6). -/
theorem risk_adjuster_range_amended (b l p : ℚ)
    (hb1 : 1 ≤ b) (hb2 : b ≤ 99) (hl1 : 0.5 ≤ l) (hl2 : l ≤ 6)
    (hp1 : 0.5 ≤ p) (hp2 : p ≤ 6) :
    (0.4 ≤ calculate_ldl_effect b l p ∧ calculate_ldl_effect b l p ≤ 218.79)
    ∧ calculate_ldl_effect 1 6 0.5 = 0.4
    ∧ calculate_ldl_effect 99 0.5 6 = 218.79 := by
  have h60 : min (22 * (l - p)) 60 ≤ 60 := min_le_right _ _
  have h121 : (-121 : ℚ) ≤ min (22 * (l - p)) 60 := le_min (by linarith) (by norm_num)
  refine ⟨?_, by norm_num [calculate_ldl_effect, min_def],
    by norm_num [calculate_ldl_effect, min_def]⟩
  simp only [calculate_ldl_effect]
  constructor
  · nlinarith [mul_nonneg (show (0:ℚ) ≤ b - 1 by linarith)
      (show (0:ℚ) ≤ 1 - min (22 * (l - p)) 60 / 100 by linarith)]
  · nlinarith [mul_nonneg (show (0:ℚ) ≤ 99 - b by linarith)
      (show (0:ℚ) ≤ 1 - min (22 * (l - p)) 60 / 100 by linarith),
      mul_nonneg (show (0:ℚ) ≤ b by linarith)
      (show (0:ℚ) ≤ 221/100 - (1 - min (22 * (l - p)) 60 / 100) by linarith)]

/-- Witness for the amended C4 at (40, 3.5, 1.4). -/
theorem risk_adjuster_range_amended_witness :
    (0.4 ≤ calculate_ldl_effect 40 3.5 1.4 ∧ calculate_ldl_effect 40 3.5 1.4 ≤ 218.79)
    ∧ calculate_ldl_effect 1 6 0.5 = 0.4
    ∧ calculate_ldl_effect 99 0.5 6 = 218.79 :=
  risk_adjuster_range_amended 40 3.5 1.4 (by norm_num) (by norm_num) (by norm_num)
    (by norm_num) (by norm_num) (by norm_num)

/-- C6: LdlReductionModel halves the new statin's base reduction exactly when
the prior statin differs from "None", stacks the fixed add-on reductions
(Ezetimibe 20, PCSK9 inhibitor 60, Inclisiran 50) additively with no cap,
returns `projectedLdl = currentLdl * (1 - totalReduction / 100)`, and on
(prior "Atorvastatin 20 mg", new "Rosuvastatin 20 mg", add-ons [Ezetimibe])
gives total reduction 47.5. -/
theorem ldl_reduction_model (c : ℚ) (prior new : String) (addOns : List String)
    (hprior : prior ≠ "None") :
    (calculate_ldl_reduction c prior new addOns).2
        = statin_reduction new * 0.5 + (addOns.map add_on_reduction).sum
    ∧ (∀ c2 : ℚ, ∀ new2 : String, ∀ addOns2 : List String,
        (calculate_ldl_reduction c2 "None" new2 addOns2).2
          = statin_reduction new2 + (addOns2.map add_on_reduction).sum)
    ∧ (∀ c3 : ℚ, ∀ prior3 new3 : String, ∀ addOns3 : List String,
        (calculate_ldl_reduction c3 prior3 new3 addOns3).1
          = c3 * (1 - (calculate_ldl_reduction c3 prior3 new3 addOns3).2 / 100))
    ∧ add_on_reduction "Ezetimibe" = 20
    ∧ add_on_reduction "PCSK9 inhibitor" = 60
    ∧ add_on_reduction "Inclisiran" = 50
    ∧ (calculate_ldl_reduction c "Atorvastatin 20 mg" "Rosuvastatin 20 mg" ["Ezetimibe"]).2
        = 47.5 := by
  refine ⟨?_, ?_, fun c3 prior3 new3 addOns3 => rfl, by decide, by decide, by decide, ?_⟩
  · simp [calculate_ldl_reduction, hprior]
  · intro c2 new2 addOns2
    simp [calculate_ldl_reduction]
  · have hne : ("Atorvastatin 20 mg" : String) ≠ "None" := by decide
    have h55 : statin_reduction "Rosuvastatin 20 mg" = 55 := by decide
    have h20 : add_on_reduction "Ezetimibe" = 20 := by decide
    simp only [calculate_ldl_reduction, if_pos hne, List.map, List.sum_cons, List.sum_nil,
      h55, h20]
    norm_num

/-- Witness for C6 at concrete regimens. -/
theorem ldl_reduction_model_witness :
    (calculate_ldl_reduction 3.5 "Atorvastatin 20 mg" "Rosuvastatin 20 mg" ["Ezetimibe"]).2
      = 47.5 :=
  (ldl_reduction_model 3.5 "Atorvastatin 20 mg" "Rosuvastatin 20 mg" ["Ezetimibe"]
    (by decide)).2.2.2.2.2.2

/-- C7: the validator returns the empty sequence exactly when at most one
selected therapy matches each drug class, and in general returns one message
per class with two or more matches, in class declaration order, each listing
that class's offenders in input order. -/
theorem therapy_conflict_validator_correct (ts : List String) :
    (validate_drug_classes ts = [] ↔
      ∀ c ∈ drug_classes, (class_offenders ts c).length ≤ 1)
    ∧ validate_drug_classes ts
        = (drug_classes.filter (fun c => decide (2 ≤ (class_offenders ts c).length))).map
            (fun c => conflict_message c.1 (class_offenders ts c)) := by
  refine ⟨?_, validate_drug_classes_eq ts⟩
  rw [validate_drug_classes_eq ts]
  simp only [List.map_eq_nil_iff, List.filter_eq_nil_iff, decide_eq_true_eq, not_le]
  constructor
  · intro h c hc
    exact Nat.lt_succ_iff.mp (h c hc)
  · intro h c hc
    exact Nat.lt_succ_iff.mpr (h c hc)

/-- C8: RecommendationEngine maps risk at least 30 to VeryHigh, [20, 30) to
High, below 20 to Moderate; 29.9 gives High and 30.0 gives VeryHigh. -/
theorem recommendation_engine_tiers (r : ℚ) :
    (30 ≤ r → (generate_recommendations r).1 = RiskTier.veryHigh)
    ∧ (20 ≤ r → r < 30 → (generate_recommendations r).1 = RiskTier.high)
    ∧ (r < 20 → (generate_recommendations r).1 = RiskTier.moderate)
    ∧ (generate_recommendations 29.9).1 = RiskTier.high
    ∧ (generate_recommendations 30).1 = RiskTier.veryHigh := by
  refine ⟨?_, ?_, ?_, ?_, ?_⟩
  · intro h
    simp [generate_recommendations, h]
  · intro h1 h2
    simp [generate_recommendations, h1, show ¬(30 ≤ r) from by linarith]
  · intro h
    simp [generate_recommendations, show ¬(30 ≤ r) from by linarith,
      show ¬(20 ≤ r) from by linarith]
  · norm_num [generate_recommendations]
  · norm_num [generate_recommendations]

/-- Witness for C8 at risks 35, 25 and 10. -/
theorem recommendation_engine_tiers_witness :
    (generate_recommendations 35).1 = RiskTier.veryHigh
    ∧ (generate_recommendations 25).1 = RiskTier.high
    ∧ (generate_recommendations 10).1 = RiskTier.moderate :=
  ⟨(recommendation_engine_tiers 35).1 (by norm_num),
   (recommendation_engine_tiers 25).2.1 (by norm_num) (by norm_num),
   (recommendation_engine_tiers 10).2.2.1 (by norm_num)⟩

/-! ## Theorems for the risk estimator -/

/-- C1: for every input with `crp > -1` the estimator returns exactly the
spec's `clamp (round (risk10 * 100) 1) 1 99` built from the spec's linear
predictor; the code's `-0.2 * (egfr / 10)` term coincides with the spec's
`-0.02 * egfr` coefficient. -/
theorem risk_estimator_matches_spec (age : ℝ) (sex : String) (sbp total_chol hdl : ℝ)
    (smoker diabetes : Bool) (egfr crp vasc_count : ℝ) (h : -1 < crp) :
    calculate_smart_risk_run age sex sbp total_chol hdl smoker diabetes egfr crp vasc_count
      = Except.ok
          (spec_estimate age sex sbp total_chol hdl smoker diabetes egfr crp vasc_count) := by
  rw [calculate_smart_risk_run_ok age sex sbp total_chol hdl smoker diabetes egfr crp
    vasc_count h, calculate_smart_risk_eq, spec_estimate_eq]
  congr 2
  ring

/-- Witness for C1 at the end-to-end scenario of spec section 8. -/
theorem risk_estimator_matches_spec_witness :
    calculate_smart_risk_run 65 "Male" 140 5 1 true false 80 2 1
      = Except.ok (spec_estimate 65 "Male" 140 5 1 true false 80 2 1) :=
  risk_estimator_matches_spec 65 "Male" 140 5 1 true false 80 2 1 (by norm_num)

/-- C2: for every input tuple within the section-3 domain ranges the
estimator succeeds and its result lies in the closed interval [1.0, 99.0]. -/
theorem risk_estimate_in_range (age : ℝ) (sex : String) (sbp total_chol hdl : ℝ)
    (smoker diabetes : Bool) (egfr crp vasc_count : ℝ)
    (hage1 : 30 ≤ age) (hage2 : age ≤ 100)
    (hsex : sex = "Male" ∨ sex = "Female")
    (hsbp1 : 90 ≤ sbp) (hsbp2 : sbp ≤ 220)
    (htc1 : 2 ≤ total_chol) (htc2 : total_chol ≤ 10)
    (hhdl1 : 0.5 ≤ hdl) (hhdl2 : hdl ≤ 3)
    (hegfr1 : 15 ≤ egfr) (hegfr2 : egfr ≤ 120)
    (hcrp1 : 0.1 ≤ crp) (hcrp2 : crp ≤ 20)
    (hvc1 : 0 ≤ vasc_count) (hvc2 : vasc_count ≤ 3) :
    calculate_smart_risk_run age sex sbp total_chol hdl smoker diabetes egfr crp vasc_count
      = Except.ok
          (calculate_smart_risk age sex sbp total_chol hdl smoker diabetes egfr crp
            vasc_count)
    ∧ 1.0 ≤ calculate_smart_risk age sex sbp total_chol hdl smoker diabetes egfr crp
        vasc_count
    ∧ calculate_smart_risk age sex sbp total_chol hdl smoker diabetes egfr crp vasc_count
        ≤ 99.0 := by
  refine ⟨calculate_smart_risk_run_ok age sex sbp total_chol hdl smoker diabetes egfr crp
    vasc_count (by linarith), ?_, ?_⟩
  · rw [calculate_smart_risk_eq]
    unfold smartFromLp
    exact le_max_left _ _
  · rw [calculate_smart_risk_eq]
    unfold smartFromLp
    exact max_le (by norm_num) (min_le_left _ _)

/-- Witness for C2 at the end-to-end scenario of spec section 8. -/
theorem risk_estimate_in_range_witness :
    calculate_smart_risk_run 65 "Male" 140 5 1 true false 80 2 1
        = Except.ok (calculate_smart_risk 65 "Male" 140 5 1 true false 80 2 1)
    ∧ 1.0 ≤ calculate_smart_risk 65 "Male" 140 5 1 true false 80 2 1
    ∧ calculate_smart_risk 65 "Male" 140 5 1 true false 80 2 1 ≤ 99.0 :=
  risk_estimate_in_range 65 "Male" 140 5 1 true false 80 2 1 (by norm_num) (by norm_num)
    (Or.inl rfl) (by norm_num) (by norm_num) (by norm_num) (by norm_num) (by norm_num)
    (by norm_num) (by norm_num) (by norm_num) (by norm_num) (by norm_num) (by norm_num)
    (by norm_num)

/-- C3 fails as stated: at `crp = -1` (so `crp ≤ -1`) the estimator
propagates the raw math-domain error of the logarithm, not a wrapped
InvalidInput error. -/
theorem invalid_crp_counterexample :
    calculate_smart_risk_run 65 "Male" 140 5 1 true false 80 (-1) 1
      = Except.error CalcError.mathDomainError
    ∧ calculate_smart_risk_run 65 "Male" 140 5 1 true false 80 (-1) 1
      ≠ Except.error CalcError.invalidInput := by
  have h : calculate_smart_risk_run 65 "Male" 140 5 1 true false 80 (-1) 1
      = Except.error CalcError.mathDomainError := by
    unfold calculate_smart_risk_run mathLog
    rw [if_neg (by norm_num : ¬((0:ℝ) < -1 + 1))]
    rfl
  refine ⟨h, ?_⟩
  rw [h]
  simp

/-- C3 amended: for every input with `crp ≤ -1` the computation aborts with
the math primitive's propagated domain error — an error is reported to the
caller and no partial or stale result is returned, but it is the raw
ValueError from `math.log`, not a wrapped InvalidInput. -/
theorem invalid_crp_aborts (age : ℝ) (sex : String) (sbp total_chol hdl : ℝ)
    (smoker diabetes : Bool) (egfr crp vasc_count : ℝ) (h : crp ≤ -1) :
    calculate_smart_risk_run age sex sbp total_chol hdl smoker diabetes egfr crp vasc_count
      = Except.error CalcError.mathDomainError := by
  unfold calculate_smart_risk_run mathLog
  rw [if_neg (not_lt.mpr (by linarith : crp + 1 ≤ 0))]
  rfl

/-- Witness for the amended C3 at `crp = -2`. -/
theorem invalid_crp_aborts_witness :
    calculate_smart_risk_run 65 "Male" 140 5 1 true false 80 (-2) 1
      = Except.error CalcError.mathDomainError :=
  invalid_crp_aborts 65 "Male" 140 5 1 true false 80 (-2) 1 (by norm_num)

/-- C9: the estimator is deterministic — equal full input tuples yield equal
results — and a memo cache keyed on the full input tuple that is consistent
with the estimator never changes any result. -/
theorem risk_estimator_deterministic (i j : SmartInput)
    (cache : SmartInput → Option (Except CalcError ℝ))
    (hij : i = j)
    (hcache : ∀ k r, cache k = some r → r = estimateOn k) :
    estimateOn i = estimateOn j ∧ estimateWithCache cache i = estimateOn i := by
  refine ⟨by rw [hij], ?_⟩
  cases hc : cache i with
  | none => simp [estimateWithCache, hc]
  | some r =>
      have hr : estimateWithCache cache i = r := by simp [estimateWithCache, hc]
      rw [hr]
      exact hcache i r hc

/-- Witness for C9: the empty cache on the section-8 scenario input. -/
theorem risk_estimator_deterministic_witness :
    estimateOn ⟨65, "Male", 140, 5, 1, true, false, 80, 2, 1⟩
        = estimateOn ⟨65, "Male", 140, 5, 1, true, false, 80, 2, 1⟩
    ∧ estimateWithCache (fun _ => none) ⟨65, "Male", 140, 5, 1, true, false, 80, 2, 1⟩
        = estimateOn ⟨65, "Male", 140, 5, 1, true, false, 80, 2, 1⟩ :=
  risk_estimator_deterministic _ _ (fun _ => none) rfl
    (fun _ r h => Option.noConfusion h)

/-- C10: the estimator is weakly monotone in each risk factor with the other
inputs fixed: nondecreasing in age, sbp, total cholesterol, crp and vascular
count, nondecreasing when smoker or diabetes flips to true or sex moves from
Female to Male, and nonincreasing in hdl and egfr. -/
theorem risk_estimator_monotone
    (age sbp total_chol hdl egfr crp vasc_count x y : ℝ) (sex : String)
    (smoker diabetes : Bool) (hxy : x ≤ y) (hcrp : -1 < crp) :
    (calculate_smart_risk x sex sbp total_chol hdl smoker diabetes egfr crp vasc_count
      ≤ calculate_smart_risk y sex sbp total_chol hdl smoker diabetes egfr crp vasc_count)
    ∧ (calculate_smart_risk age sex x total_chol hdl smoker diabetes egfr crp vasc_count
      ≤ calculate_smart_risk age sex y total_chol hdl smoker diabetes egfr crp vasc_count)
    ∧ (calculate_smart_risk age sex sbp x hdl smoker diabetes egfr crp vasc_count
      ≤ calculate_smart_risk age sex sbp y hdl smoker diabetes egfr crp vasc_count)
    ∧ (-1 < x →
        calculate_smart_risk age sex sbp total_chol hdl smoker diabetes egfr x vasc_count
      ≤ calculate_smart_risk age sex sbp total_chol hdl smoker diabetes egfr y vasc_count)
    ∧ (calculate_smart_risk age sex sbp total_chol hdl smoker diabetes egfr crp x
      ≤ calculate_smart_risk age sex sbp total_chol hdl smoker diabetes egfr crp y)
    ∧ (calculate_smart_risk age "Female" sbp total_chol hdl smoker diabetes egfr crp
        vasc_count
      ≤ calculate_smart_risk age "Male" sbp total_chol hdl smoker diabetes egfr crp
        vasc_count)
    ∧ (calculate_smart_risk age sex sbp total_chol hdl false diabetes egfr crp vasc_count
      ≤ calculate_smart_risk age sex sbp total_chol hdl true diabetes egfr crp vasc_count)
    ∧ (calculate_smart_risk age sex sbp total_chol hdl smoker false egfr crp vasc_count
      ≤ calculate_smart_risk age sex sbp total_chol hdl smoker true egfr crp vasc_count)
    ∧ (calculate_smart_risk age sex sbp total_chol y smoker diabetes egfr crp vasc_count
      ≤ calculate_smart_risk age sex sbp total_chol x smoker diabetes egfr crp vasc_count)
    ∧ (calculate_smart_risk age sex sbp total_chol hdl smoker diabetes y crp vasc_count
      ≤ calculate_smart_risk age sex sbp total_chol hdl smoker diabetes x crp
        vasc_count) := by
  refine ⟨?_, ?_, ?_, ?_, ?_, ?_, ?_, ?_, ?_, ?_⟩
  · simp only [calculate_smart_risk_eq]
    exact smartFromLp_mono (by linarith)
  · simp only [calculate_smart_risk_eq]
    exact smartFromLp_mono (by linarith)
  · simp only [calculate_smart_risk_eq]
    exact smartFromLp_mono (by linarith)
  · intro hx
    have hlog : Real.log (x + 1) ≤ Real.log (y + 1) :=
      Real.log_le_log (by linarith) (by linarith)
    simp only [calculate_smart_risk_eq]
    exact smartFromLp_mono (by linarith)
  · simp only [calculate_smart_risk_eq]
    exact smartFromLp_mono (by linarith)
  · rw [calculate_smart_risk_eq, calculate_smart_risk_eq]
    refine smartFromLp_mono ?_
    rw [show (if ("Female" : String) = "Male" then (1:ℝ) else 0) = 0 from rfl,
      show (if ("Male" : String) = "Male" then (1:ℝ) else 0) = 1 from rfl]
    linarith
  · rw [calculate_smart_risk_eq, calculate_smart_risk_eq]
    refine smartFromLp_mono ?_
    rw [show (if (false : Bool) = true then (1:ℝ) else 0) = 0 from rfl,
      show (if (true : Bool) = true then (1:ℝ) else 0) = 1 from rfl]
    linarith
  · rw [calculate_smart_risk_eq, calculate_smart_risk_eq]
    refine smartFromLp_mono ?_
    rw [show (if (false : Bool) = true then (1:ℝ) else 0) = 0 from rfl,
      show (if (true : Bool) = true then (1:ℝ) else 0) = 1 from rfl]
    linarith
  · simp only [calculate_smart_risk_eq]
    exact smartFromLp_mono (by linarith)
  · simp only [calculate_smart_risk_eq]
    exact smartFromLp_mono (by linarith)

/-- Witness for C10: the age component at ages 65 and 66. -/
theorem risk_estimator_monotone_witness :
    calculate_smart_risk 65 "Male" 140 5 1 true false 80 2 1
      ≤ calculate_smart_risk 66 "Male" 140 5 1 true false 80 2 1 :=
  (risk_estimator_monotone 65 140 5 1 80 2 1 65 66 "Male" true false (by norm_num)
    (by norm_num)).1

end CVD
